import Mathlib

/-!
Verification of the flashcard renderer (`src/flash_card.py`,
class `FlashcardGenerator`).

Shallow-embedding conventions:
* PIL font handles are abstracted by their integer size wherever only the
  size matters (the text-measurement functions are parameterised by the
  size); the three-tier `load_font` fallback itself is modelled separately
  with explicit fallibility of the two `ImageFont.truetype` calls.
* Text measurement (`ImageDraw.textbbox`) and template image dimensions
  (`Image.open(path).size`) are external to the repository's code; they are
  parameters of a `RenderEnv`.
* Python strings are Lean `String`s; `str.split()`, `os.path.basename`,
  `os.path.dirname`, `str.lower().endswith(...)` are modelled by char-list
  operations with identical semantics.
* Python integer arithmetic uses `Int` where subtraction or floor division
  (`//`, modelled by `Int.fdiv`) can act on negative values.
* The filesystem seen by the constructor is a parameter `FS` (existence,
  directory listing, and whether `Image.open` succeeds on a file).
* A rendered card (PIL image) is modelled by its canvas size, its source
  (template file or solid colour) and the ordered list of `draw.text`
  operations performed on it.
-/

namespace FlashCard

/-- Python's `sep.join(xs)`: empty string on the empty list, no trailing
separator. -/
def pyJoin (sep : String) : List String → String
  | [] => ""
  | [x] => x
  | x :: y :: rest => x ++ sep ++ pyJoin sep (y :: rest)

/-- Python's `text.split()` (no argument): split on runs of whitespace,
dropping empty pieces. -/
def pyWords (text : String) : List String :=
  ((List.splitOnP (fun c => c.isWhitespace) text.toList).filter
    (fun piece => piece ≠ [])).map List.asString

/-- `os.path.basename` for POSIX paths: the part after the last `/`. -/
def os_path_basename (p : String) : String :=
  ((p.toList.splitOn '/').getLastD []).asString

/-- `os.path.dirname` for POSIX paths: everything before the last `/`
(`""` when there is no separator). -/
def os_path_dirname (p : String) : String :=
  pyJoin "/" (((p.toList.splitOn '/').dropLast).map List.asString)

/-- The inline check `file.lower().endswith(('.png', '.jpg', '.jpeg'))`
from `_load_templates`. -/
def is_image_file (file : String) : Bool :=
  let l := file.toList.map Char.toLower
  ".png".toList.isSuffixOf l || ".jpg".toList.isSuffixOf l ||
    ".jpeg".toList.isSuffixOf l

/-- Python truthiness of an optional string (`None` and `""` are falsy). -/
def pyTruthy : Option String → Bool
  | none => false
  | some s => s != ""

/-- `random.choice(xs)` for a non-empty list, with the random state made
explicit as the chosen index source `rng`. -/
def random_choice (rng : Nat) (xs : List String) : String :=
  xs.getD (rng % xs.length) ""

/-- The external measurement/decoding environment: text width and height as
reported by `ImageDraw.textbbox` for a font of a given size, and the pixel
dimensions of a template image as reported by `Image.open(path).size`. -/
structure RenderEnv where
  textW : Nat → String → Nat
  textH : Nat → String → Nat
  dims : String → Nat × Nat

/-- `get_text_bbox(text, font)`: the (width, height) pair of the rendered
text, for a font abstracted by its size. -/
def get_text_bbox (env : RenderEnv) (fontSize : Nat) (text : String) :
    Nat × Nat :=
  (env.textW fontSize text, env.textH fontSize text)

/-- The loop body of `wrap_text`: fold over the remaining words carrying
`current_line` (a list of words); emits closed lines as word lists.
Mirrors the source exactly: a word is appended while the joined test line
still fits; otherwise the current line (if non-empty) is closed and the
word starts a new line. -/
def wrap_words (wmeasure : String → Nat) (max_width : Int) :
    List String → List String → List (List String)
  | current_line, [] =>
      if current_line = [] then [] else [current_line]
  | current_line, word :: rest =>
      if (wmeasure (pyJoin " " (current_line ++ [word])) : Int) ≤ max_width
          then
        wrap_words wmeasure max_width (current_line ++ [word]) rest
      else if current_line = [] then
        wrap_words wmeasure max_width [word] rest
      else
        current_line :: wrap_words wmeasure max_width [word] rest

/-- `wrap_text(text, font, max_width)`: the font argument is abstracted by
its width-measure `wmeasure`. Returns the joined lines. -/
def wrap_text (wmeasure : String → Nat) (text : String) (max_width : Int) :
    List String :=
  (wrap_words wmeasure max_width [] (pyWords text)).map (pyJoin " ")

/-- The `total_height` computed inside `scale_font_size_to_fit`: the sum of
the wrapped lines' rendered heights plus `(len(lines) - 1) * 15`, in `Int`
as in Python (it is `-15` on an empty line list). -/
def total_wrapped_height (env : RenderEnv) (font_size : Nat) (text : String)
    (max_width : Int) : Int :=
  (((wrap_text (env.textW font_size) text max_width).map
      fun line => (get_text_bbox env font_size line).2).sum : Int)
    + (((wrap_text (env.textW font_size) text max_width).length : Int) - 1)
      * 15

/-- `scale_font_size_to_fit(text, font, max_width, max_height)`: shrink the
font size by 2 while the wrapped text's total height exceeds `max_height`
and the size is above 10. Returns the final size (standing for the reloaded
font) and the wrapped lines, as the source returns `(font, lines)`. -/
def scale_font_size_to_fit (env : RenderEnv) (text : String)
    (font_size : Nat) (max_width max_height : Int) : Nat × List String :=
  if h : max_height < total_wrapped_height env font_size text max_width ∧
      10 < font_size then
    scale_font_size_to_fit env text (font_size - 2) max_width max_height
  else
    (font_size, wrap_text (env.textW font_size) text max_width)
termination_by font_size
decreasing_by omega

/-- One `draw.text` call: position, drawn string, font size and fill
colour. -/
structure TextDraw where
  x : Int
  y : Int
  text : String
  fontSize : Nat
  fill : String
deriving DecidableEq, Repr

/-- Default draw used with `List.getD`. -/
def noDraw : TextDraw := { x := 0, y := 0, text := "", fontSize := 0, fill := "" }

instance : Inhabited TextDraw := ⟨noDraw⟩

/-- What the card's canvas came from: a decoded template file or an
`Image.new` solid colour. -/
inductive ImgSource where
  | template (path : String)
  | solid (color : String)
deriving DecidableEq, Repr

/-- A rendered card: canvas width/height, its source, and the ordered
`draw.text` operations performed on it. -/
structure Img where
  width : Nat
  height : Nat
  source : ImgSource
  draws : List TextDraw
deriving DecidableEq, Repr

/-- The per-line drawing loop of `add_text_to_template`: each line is drawn
twice, first the shadow at `(+2, +2)` in `"#00000040"`, then the main text;
`current_y` advances by the line height plus 15. Positions use Python's
floor division `//`, i.e. `Int.fdiv`. -/
def draw_template_lines (env : RenderEnv) (font : Nat) (text_color : String)
    (width : Nat) : Int → List String → List TextDraw
  | _, [] => []
  | current_y, line :: rest =>
      { x := Int.fdiv ((width : Int) - (env.textW font line : Int)) 2 + 2,
        y := current_y + 2, text := line, fontSize := font,
        fill := "#00000040" } ::
      { x := Int.fdiv ((width : Int) - (env.textW font line : Int)) 2,
        y := current_y, text := line, fontSize := font,
        fill := text_color } ::
      draw_template_lines env font text_color width
        (current_y + (env.textH font line : Int) + 15) rest

/-- `add_text_to_template(template_path, text, text_color)`: open the
template (dimensions from the environment), fit the text starting at font
size 32 within the margins (`self.margin = 50`), vertically centre the
block and draw each line horizontally centred with a shadow pass. -/
def add_text_to_template (env : RenderEnv) (template_path text text_color :
    String) : Img :=
  let width := (env.dims template_path).1
  let height := (env.dims template_path).2
  let max_text_width : Int := (width : Int) - 2 * 50
  let max_text_height : Int := (height : Int) - 2 * 50
  let fitted := scale_font_size_to_fit env text 32 max_text_width
    max_text_height
  let font := fitted.1
  let lines := fitted.2
  let line_heights := lines.map (env.textH font)
  let total_height : Int :=
    (line_heights.sum : Int) + ((lines.length : Int) - 1) * 15
  let start_y : Int := Int.fdiv ((height : Int) - total_height) 2
  { width := width, height := height,
    source := ImgSource.template template_path,
    draws := draw_template_lines env font text_color width start_y lines }

/-- The per-line drawing loop of `_create_simple_card`: like the template
loop but on the fixed 800-wide canvas and without the shadow pass. -/
def draw_simple_lines (env : RenderEnv) (font : Nat) (text_color : String) :
    Int → List String → List TextDraw
  | _, [] => []
  | current_y, line :: rest =>
      { x := Int.fdiv ((800 : Int) - (env.textW font line : Int)) 2,
        y := current_y, text := line, fontSize := font,
        fill := text_color } ::
      draw_simple_lines env font text_color
        (current_y + (env.textH font line : Int) + 15) rest

/-- `_create_simple_card(text, label, bg_color, text_color)`: an 800 by 500
solid-colour canvas, the label drawn at (20, 20) with font size 20, and the
text wrapped at width 700 with font size 36, vertically centred. -/
def create_simple_card (env : RenderEnv) (text label bg_color text_color :
    String) : Img :=
  let font := 36
  let label_font := 20
  let lines := wrap_text (env.textW font) text 700
  let line_heights := lines.map (env.textH font)
  let total_height : Int :=
    (line_heights.sum : Int) + ((lines.length : Int) - 1) * 15
  let start_y : Int := Int.fdiv ((500 : Int) - total_height) 2
  { width := 800, height := 500, source := ImgSource.solid bg_color,
    draws := { x := 20, y := 20, text := label, fontSize := label_font,
               fill := text_color } ::
             draw_simple_lines env font text_color start_y lines }

/-- `create_flashcard_pair(question, answer, question_template=None)`.
State made explicit: `answer_templates` is `self.answer_templates` (the
question-template collection is not read by this method in the source), and
`rng` is the random state consumed by `random.choice`. -/
def create_flashcard_pair (env : RenderEnv) (answer_templates : List String)
    (rng : Nat) (question answer : String)
    (question_template : Option String) : Img × Img :=
  let answer_template : Option String :=
    if pyTruthy question_template && !answer_templates.isEmpty then
      let question_filename := os_path_basename (question_template.getD "")
      match answer_templates.find?
          (fun t => os_path_basename t == question_filename) with
      | some t =>
          -- the source re-tests `if not answer_template` after the loop,
          -- so a falsy (empty) match still falls back to random.choice
          if t = "" then some (random_choice rng answer_templates)
          else some t
      | none => some (random_choice rng answer_templates)
    else none
  let front :=
    if !pyTruthy question_template then
      create_simple_card env question "QUESTION" "#4A90E2" "#FFFFFF"
    else
      add_text_to_template env (question_template.getD "") question "#FFFFFF"
  let back :=
    if !pyTruthy answer_template then
      create_simple_card env answer "ANSWER" "#27AE60" "#FFFFFF"
    else
      add_text_to_template env (answer_template.getD "") answer "#FFFFFF"
  (front, back)

/-- A PIL font handle as produced by `load_font`. -/
inductive PILFont where
  | truetype (path : String) (size : Nat)
  | bitmapDefault
deriving DecidableEq, Repr

/-- `load_font(size)`: `ImageFont.truetype` may fail (modelled by an
`Option`-returning loader); the bare `except:` clauses try `arial.ttf`,
then the DejaVuSans-Bold path, then `ImageFont.load_default()`, which
cannot fail. -/
def load_font (truetypeLoad : String → Nat → Option PILFont) (size : Nat) :
    PILFont :=
  match truetypeLoad "arial.ttf" size with
  | some f => f
  | none =>
      match truetypeLoad
          "/usr/share/fonts/truetype/dejavu/DejaVuSans-Bold.ttf" size with
      | some f => f
      | none => PILFont.bitmapDefault

/-- The filesystem as seen by the constructor: path existence, directory
listing, and whether `Image.open` succeeds on a file. -/
structure FS where
  pathExists : String → Bool
  listdir : String → List String
  canOpen : String → Bool

/-- `os.makedirs(d, exist_ok=True)`: no-op when the path exists, otherwise
the path now exists with an empty listing. -/
def FS.mkdirs (fs : FS) (d : String) : FS :=
  if fs.pathExists d then fs
  else
    { pathExists := fun p => p == d || fs.pathExists p,
      listdir := fun p => if p == d then [] else fs.listdir p,
      canOpen := fs.canOpen }

/-- `_load_templates(directory)`: empty on a missing directory; otherwise
the listed files with an image extension that can be opened as images,
in listing order, as `os.path.join(directory, file)` paths (the directory
is already absolute, so `os.path.abspath` is the identity here). -/
def load_templates (fs : FS) (directory : String) : List String :=
  if !fs.pathExists directory then []
  else
    (fs.listdir directory).filterMap fun file =>
      if is_image_file file then
        let template_path := directory ++ "/" ++ file
        if fs.canOpen template_path then some template_path else none
      else none

/-- The path computation of `__init__`: from the directory containing
`flash_card.py` (`os.path.dirname(os.path.abspath(__file__))`), go up one
level when that directory is named `src`, then join the fixed
`src/templates/questions` and `src/templates/answers` subpaths. -/
def template_dirs (file_dir : String) : String × String :=
  let current_dir := file_dir
  let project_root :=
    if os_path_basename current_dir == "src" then os_path_dirname current_dir
    else current_dir
  (project_root ++ "/src/templates/questions",
   project_root ++ "/src/templates/answers")

/-- `FlashcardGenerator.__init__(question_templates_dir,
answer_templates_dir)`: the two directory arguments are accepted but never
read in the source; the scanned directories are derived from the source
file's location, created if absent, and then loaded. Returns the pair
`(question_templates, answer_templates)`. -/
def FlashcardGenerator.init (fs : FS) (file_dir : String)
    (question_templates_dir answer_templates_dir : String) :
    List String × List String :=
  let dirs := template_dirs file_dir
  let fs1 := (fs.mkdirs dirs.1).mkdirs dirs.2
  (load_templates fs1 dirs.1, load_templates fs1 dirs.2)

/-- Spec-mandated template loading, following the spec's words: list the
directory, filter to image extensions case-insensitively, collect the
paths in listing order; a missing directory yields the empty collection. -/
def load_templates_spec (fs : FS) (directory : String) : List String :=
  if !fs.pathExists directory then []
  else
    (fs.listdir directory).filterMap fun file =>
      if is_image_file file then some (directory ++ "/" ++ file) else none

/-- Spec-mandated constructor behaviour, following the spec's words: the
collections are built by scanning exactly the two directories passed to the
constructor. Used only to compare against `FlashcardGenerator.init`. -/
def flashcard_init_spec (fs : FS) (question_templates_dir
    answer_templates_dir : String) : List String × List String :=
  (load_templates_spec fs question_templates_dir,
   load_templates_spec fs answer_templates_dir)

/-- The fitted layout computed by `add_text_to_template`: the
`scale_font_size_to_fit` call at initial size 32 against the template's
printable area (dimensions inset by the 50 px margin on each side). -/
def fitted_layout (env : RenderEnv) (template_path text : String) :
    Nat × List String :=
  scale_font_size_to_fit env text 32
    (((env.dims template_path).1 : Int) - 2 * 50)
    (((env.dims template_path).2 : Int) - 2 * 50)

/-- A concrete measurement environment for witnesses: width is the character
count, height is the font size, every template decodes to 800 by 500. -/
def env0 : RenderEnv :=
  { textW := fun _ s => s.toList.length, textH := fun n _ => n,
    dims := fun _ => (800, 500) }

/-- A concrete environment whose text never fits vertically: every line
reports height 1000. -/
def env_tall : RenderEnv :=
  { textW := fun _ _ => 0, textH := fun _ _ => 1000,
    dims := fun _ => (800, 500) }

/-- A concrete filesystem: every path exists, the directory `mydir/q`
contains `x.png`, all other directories are empty, every file decodes. -/
def fs_cex : FS :=
  { pathExists := fun _ => true,
    listdir := fun p => if p == "mydir/q" then ["x.png"] else [],
    canOpen := fun _ => true }

/-! ### Word-wrap lemmas -/

theorem wrap_words_flatten (w : String → Nat) (mw : Int) :
    ∀ (ws current : List String),
      (wrap_words w mw current ws).flatten = current ++ ws := by
  intro ws
  induction ws with
  | nil =>
      intro current
      by_cases h : current = [] <;> simp [wrap_words, h]
  | cons word rest ih =>
      intro current
      rw [wrap_words]
      split_ifs with h1 h2
      · rw [ih]; simp
      · subst h2; simp [ih]
      · simp [ih]

theorem wrap_words_ne_nil (w : String → Nat) (mw : Int) :
    ∀ (ws current l : List String), l ∈ wrap_words w mw current ws →
      l ≠ [] := by
  intro ws
  induction ws with
  | nil =>
      intro current l hl
      by_cases h : current = [] <;> simp [wrap_words, h] at hl
      subst hl; exact h
  | cons word rest ih =>
      intro current l hl
      rw [wrap_words] at hl
      split_ifs at hl with h1 h2
      · exact ih _ _ hl
      · exact ih _ _ hl
      · rcases List.mem_cons.mp hl with h | h
        · subst h; exact h2
        · exact ih _ _ h

theorem wrap_words_width (w : String → Nat) (mw : Int) :
    ∀ (ws current l : List String),
      (current = [] ∨ current.length = 1 ∨
        (w (pyJoin " " current) : Int) ≤ mw) →
      l ∈ wrap_words w mw current ws →
      l.length = 1 ∨ (w (pyJoin " " l) : Int) ≤ mw := by
  intro ws
  induction ws with
  | nil =>
      intro current l hP hl
      by_cases h : current = [] <;> simp [wrap_words, h] at hl
      subst hl
      rcases hP with h' | h' | h'
      · exact absurd h' h
      · exact Or.inl h'
      · exact Or.inr h'
  | cons word rest ih =>
      intro current l hP hl
      rw [wrap_words] at hl
      split_ifs at hl with h1 h2
      · exact ih (current ++ [word]) l (Or.inr (Or.inr h1)) hl
      · exact ih [word] l (Or.inr (Or.inl rfl)) hl
      · rcases List.mem_cons.mp hl with h | h
        · subst h
          rcases hP with h' | h' | h'
          · exact absurd h' h2
          · exact Or.inl h'
          · exact Or.inr h'
        · exact ih [word] l (Or.inr (Or.inl rfl)) h

theorem pyJoin_append (sep : String) :
    ∀ (a b : List String), a ≠ [] → b ≠ [] →
      pyJoin sep (a ++ b) = pyJoin sep a ++ sep ++ pyJoin sep b := by
  intro a
  induction a with
  | nil => intro b h _; exact absurd rfl h
  | cons x xs ih =>
      intro b _ hb
      cases xs with
      | nil =>
          cases b with
          | nil => exact absurd rfl hb
          | cons y ys => rfl
      | cons y ys =>
          have h1 : pyJoin sep ((x :: y :: ys) ++ b) =
              x ++ sep ++ pyJoin sep ((y :: ys) ++ b) := rfl
          have h2 : pyJoin sep (x :: y :: ys) =
              x ++ sep ++ pyJoin sep (y :: ys) := rfl
          rw [h1, h2, ih b (by simp) hb]
          simp [String.append_assoc]

theorem pyJoin_flatten (sep : String) :
    ∀ (L : List (List String)), (∀ l ∈ L, l ≠ []) →
      pyJoin sep (L.map (pyJoin sep)) = pyJoin sep L.flatten := by
  intro L
  induction L with
  | nil => intro _; rfl
  | cons l rest ih =>
      intro hne
      cases rest with
      | nil => simp [pyJoin]
      | cons l2 rest2 =>
          have hl : l ≠ [] := hne l (by simp)
          have hl2 : l2 ≠ [] := hne l2 (by simp)
          have hflat : (l2 :: rest2).flatten ≠ [] := by
            cases l2 with
            | nil => exact absurd rfl hl2
            | cons c cs => simp
          rw [List.map_cons, List.flatten_cons]
          rw [show pyJoin sep (pyJoin sep l :: List.map (pyJoin sep)
              (l2 :: rest2)) = pyJoin sep l ++ sep ++ pyJoin sep
              (List.map (pyJoin sep) (l2 :: rest2)) from rfl]
          rw [ih (fun x hx => hne x (by simp [hx]))]
          rw [pyJoin_append sep l (l2 :: rest2).flatten hl hflat]

/-- C4: every line produced by `wrap_text` either fits within `max_width`
or is a single input word standing alone on its line and wider than
`max_width`; and re-joining the lines with single spaces reproduces the
whitespace-normalised input (the single-space join of the split words). -/
theorem wrap_text_correct (wmeasure : String → Nat) (text : String)
    (max_width : Int) :
    (∀ line ∈ wrap_text wmeasure text max_width,
        (wmeasure line : Int) ≤ max_width ∨
          (line ∈ pyWords text ∧ max_width < (wmeasure line : Int))) ∧
    pyJoin " " (wrap_text wmeasure text max_width) =
      pyJoin " " (pyWords text) := by
  constructor
  · intro line hline
    rw [wrap_text] at hline
    obtain ⟨l, hl, hjoin⟩ := List.mem_map.mp hline
    rcases wrap_words_width wmeasure max_width (pyWords text) [] l
        (Or.inl rfl) hl with hlen | hle
    · rcases List.length_eq_one.mp hlen with ⟨x, rfl⟩
      have hxmem : x ∈ pyWords text := by
        have : x ∈ (wrap_words wmeasure max_width [] (pyWords text)).flatten :=
          List.mem_flatten.mpr ⟨[x], hl, by simp⟩
        rwa [wrap_words_flatten, List.nil_append] at this
      have hline_eq : line = x := by rw [← hjoin]; rfl
      rw [hline_eq]
      by_cases hw : (wmeasure x : Int) ≤ max_width
      · exact Or.inl hw
      · exact Or.inr ⟨hxmem, lt_of_not_le hw⟩
    · rw [← hjoin]; exact Or.inl hle
  · rw [wrap_text]
    rw [pyJoin_flatten " " _ (fun l hl =>
      wrap_words_ne_nil wmeasure max_width (pyWords text) [] l hl)]
    rw [wrap_words_flatten, List.nil_append]

/-- C4 witness: the rejoin property at a concrete measure, text and width. -/
theorem wrap_text_correct_witness :
    pyJoin " " (wrap_text (fun s => s.toList.length) "ab cd" 3) =
      pyJoin " " (pyWords "ab cd") :=
  (wrap_text_correct (fun s => s.toList.length) "ab cd" 3).2

/-! ### Font-shrink loop -/

/-- C5, amended: the shrink loop terminates, the font size decreases by
exactly 2 per iteration (`k` iterations in all, so the result is
`initial - 2k`), `k` is bounded by `(initial - 9) / 2` — which equals
`⌈(initial - 10) / 2⌉` — and once shrinking occurs the returned size is at
least 9; when the initial size is even the claimed floor of 10 and bound
`(initial - 10) / 2` do hold. -/
theorem scale_font_size_to_fit_shrink (env : RenderEnv) (text : String)
    (max_width max_height : Int) (font_size : Nat) :
    ∃ k : Nat,
      (scale_font_size_to_fit env text font_size max_width max_height).1
          + 2 * k = font_size ∧
      k ≤ (font_size - 9) / 2 ∧
      (k = 0 ∨ (1 ≤ k ∧
        9 ≤ (scale_font_size_to_fit env text font_size max_width
          max_height).1)) ∧
      (font_size % 2 = 0 →
        k ≤ (font_size - 10) / 2 ∧
        (k = 0 ∨ 10 ≤ (scale_font_size_to_fit env text font_size max_width
          max_height).1)) := by
  induction font_size using Nat.strong_induction_on with
  | _ fs ih =>
    rw [scale_font_size_to_fit]
    split
    · rename_i h
      obtain ⟨k, h1, h2, h3, h4⟩ := ih (fs - 2) (by omega)
      refine ⟨k + 1, by omega, ?_, by omega, fun he => ?_⟩
      · omega
      · have h4h := h4 (by omega)
        omega
    · exact ⟨0, by simp, Nat.zero_le _, Or.inl rfl,
        fun _ => ⟨Nat.zero_le _, Or.inl rfl⟩⟩

/-- C5 witness: the shrink facts instantiated at a concrete environment. -/
theorem scale_font_size_to_fit_shrink_witness :
    ∃ k : Nat,
      (scale_font_size_to_fit env0 "hi" 32 700 400).1 + 2 * k = 32 ∧
      k ≤ (32 - 9) / 2 ∧
      (k = 0 ∨ (1 ≤ k ∧ 9 ≤ (scale_font_size_to_fit env0 "hi" 32 700
        400).1)) ∧
      (32 % 2 = 0 →
        k ≤ (32 - 10) / 2 ∧
        (k = 0 ∨ 10 ≤ (scale_font_size_to_fit env0 "hi" 32 700 400).1)) :=
  scale_font_size_to_fit_shrink env0 "hi" 700 400 32

/-- C5 counterexample: with an odd initial size 11 and text that never fits
vertically, the loop runs once (though `(11 - 10) / 2 = 0`) and returns
font size 9, below the claimed floor of 10. -/
theorem scale_font_size_to_fit_floor_counterexample :
    (scale_font_size_to_fit env_tall "a" 11 700 10).1 = 9 ∧
    (scale_font_size_to_fit env_tall "a" 11 700 10).1 < 10 := by
  have h : (scale_font_size_to_fit env_tall "a" 11 700 10).1 = 9 := by
    rw [scale_font_size_to_fit, dif_pos (by decide),
        scale_font_size_to_fit, dif_neg (by decide)]
  exact ⟨h, by rw [h]; decide⟩

/-! ### Centering of template-rendered text -/

theorem draw_template_lines_getD (env : RenderEnv) (font : Nat)
    (color : String) (width : Nat) :
    ∀ (lines : List String) (y : Int) (i : Nat), i < lines.length →
      (draw_template_lines env font color width y lines).getD (2 * i + 1)
          noDraw =
        { x := Int.fdiv ((width : Int) -
            (env.textW font (lines.getD i "") : Int)) 2,
          y := y + ((lines.take i).map
            (fun l => (env.textH font l : Int) + 15)).sum,
          text := lines.getD i "", fontSize := font, fill := color } := by
  intro lines
  induction lines with
  | nil => intro y i hi; simp at hi
  | cons line rest ih =>
      intro y i hi
      cases i with
      | zero =>
          simp [draw_template_lines]
      | succ j =>
          have hj : j < rest.length := by simpa using hi
          have harith : 2 * (j + 1) + 1 = (2 * j + 1) + 1 + 1 := by omega
          rw [draw_template_lines, harith, List.getD_cons_succ,
            List.getD_cons_succ, ih _ j hj]
          simp only [List.getD_cons_succ, List.take_succ_cons, List.map_cons,
            List.sum_cons, TextDraw.mk.injEq]
          refine ⟨trivial, by ring, trivial, trivial, trivial⟩

/-- C7: in `add_text_to_template`, the main draw of the `i`-th line sits at
`x = (width - line_width) // 2`, and its `y` is the centred block start
`(height - total_block_height) // 2` plus the heights-plus-15-gap of the
previous lines, where `total_block_height` is the sum of line heights plus
`(line_count - 1) * 15`. -/
theorem add_text_to_template_centering (env : RenderEnv)
    (template_path text color : String) (i : Nat)
    (hi : i < (fitted_layout env template_path text).2.length) :
    (add_text_to_template env template_path text color).draws.getD
        (2 * i + 1) noDraw =
      { x := Int.fdiv (((env.dims template_path).1 : Int) -
          (env.textW (fitted_layout env template_path text).1
            ((fitted_layout env template_path text).2.getD i "") : Int)) 2,
        y := Int.fdiv (((env.dims template_path).2 : Int) -
            ((((fitted_layout env template_path text).2.map
              (env.textH (fitted_layout env template_path text).1)).sum : Int)
              + (((fitted_layout env template_path text).2.length : Int) - 1)
                * 15)) 2
          + (((fitted_layout env template_path text).2.take i).map
              (fun l => (env.textH (fitted_layout env template_path text).1 l
                : Int) + 15)).sum,
        text := (fitted_layout env template_path text).2.getD i "",
        fontSize := (fitted_layout env template_path text).1,
        fill := color } := by
  have hd : (add_text_to_template env template_path text color).draws =
      draw_template_lines env (fitted_layout env template_path text).1 color
        (env.dims template_path).1
        (Int.fdiv (((env.dims template_path).2 : Int) -
          ((((fitted_layout env template_path text).2.map
            (env.textH (fitted_layout env template_path text).1)).sum : Int)
            + (((fitted_layout env template_path text).2.length : Int) - 1)
              * 15)) 2)
        (fitted_layout env template_path text).2 := rfl
  rw [hd]
  exact draw_template_lines_getD env (fitted_layout env template_path text).1
    color (env.dims template_path).1 (fitted_layout env template_path text).2
    _ i hi

/-- C7 witness: concrete centering facts for a one-line text on an 800 by
500 template. -/
theorem add_text_to_template_centering_witness :
    0 < (fitted_layout env0 "t.png" "hi").2.length ∧
    (add_text_to_template env0 "t.png" "hi" "#FFFFFF").draws.getD
        (2 * 0 + 1) noDraw =
      { x := 399, y := 234, text := "hi", fontSize := 32,
        fill := "#FFFFFF" } := by
  have h0 : fitted_layout env0 "t.png" "hi" = (32, ["hi"]) := by
    show scale_font_size_to_fit env0 "hi" 32
        (((env0.dims "t.png").1 : Int) - 2 * 50)
        (((env0.dims "t.png").2 : Int) - 2 * 50) = (32, ["hi"])
    rw [scale_font_size_to_fit, dif_neg (by decide)]
    decide
  have hi0 : 0 < (fitted_layout env0 "t.png" "hi").2.length := by
    rw [h0]; decide
  have h := add_text_to_template_centering env0 "t.png" "hi" "#FFFFFF" 0 hi0
  rw [h0] at h
  refine ⟨hi0, ?_⟩
  rw [h]
  decide

/-! ### Flashcard pair assembly -/

/-- C1, amended: the front card depends only on the `question_template`
argument (never on the answer-template collection or the random source, and
the question-template collection is not read by `create_flashcard_pair` at
all); it is the solid blue "QUESTION" fallback exactly when the argument is
falsy (`None` or empty), and is rendered onto the supplied path whenever
the argument is a non-empty path — even in a state with no templates. -/
theorem create_flashcard_pair_front (env : RenderEnv)
    (ats ats2 : List String) (rng rng2 : Nat) (question answer : String)
    (question_template : Option String) :
    (create_flashcard_pair env ats rng question answer question_template).1 =
      (create_flashcard_pair env ats2 rng2 question answer
        question_template).1 ∧
    (pyTruthy question_template = false →
      (create_flashcard_pair env ats rng question answer
          question_template).1 =
        create_simple_card env question "QUESTION" "#4A90E2" "#FFFFFF") ∧
    (pyTruthy question_template = true →
      (create_flashcard_pair env ats rng question answer
          question_template).1 =
        add_text_to_template env (question_template.getD "") question
          "#FFFFFF") := by
  refine ⟨rfl, fun h => ?_, fun h => ?_⟩ <;>
    simp [create_flashcard_pair, h]

/-- C1 witness: with no templates anywhere and no template argument, the
front is the blue fallback card. -/
theorem create_flashcard_pair_front_witness :
    (create_flashcard_pair env0 [] 0 "q" "a" none).1 =
      create_simple_card env0 "q" "QUESTION" "#4A90E2" "#FFFFFF" :=
  (create_flashcard_pair_front env0 [] ["z.png"] 0 1 "q" "a" none).2.1 rfl

/-- C1 counterexample: with an empty answer-template collection (and the
question-template collection never being consulted at all), passing a
non-empty `question_template` path does NOT produce the solid-colour
fallback front; the supplied path is rendered instead. -/
theorem create_flashcard_pair_front_counterexample :
    (create_flashcard_pair env0 [] 0 "q" "a" (some "t.png")).1 ≠
      create_simple_card env0 "q" "QUESTION" "#4A90E2" "#FFFFFF" := by
  intro h
  have h1 : (create_flashcard_pair env0 [] 0 "q" "a"
      (some "t.png")).1.source = ImgSource.template "t.png" := rfl
  rw [h] at h1
  have h2 : (create_simple_card env0 "q" "QUESTION" "#4A90E2"
      "#FFFFFF").source = ImgSource.solid "#4A90E2" := rfl
  rw [h2] at h1
  exact ImgSource.noConfusion h1

/-- Helper: the random source is not consulted when the question-template
argument is falsy, the answer collection is empty, or a non-empty basename
match exists. Shared by the determinism and pairing results. -/
theorem create_flashcard_pair_rng_invariance (env : RenderEnv)
    (ats : List String) (rng1 rng2 : Nat) (question answer : String)
    (question_template : Option String)
    (h : pyTruthy question_template = false ∨ ats = [] ∨
      ∃ t, ats.find? (fun t => os_path_basename t ==
          os_path_basename (question_template.getD "")) = some t ∧
        t ≠ "") :
    create_flashcard_pair env ats rng1 question answer question_template =
      create_flashcard_pair env ats rng2 question answer question_template
      := by
  rcases h with h | h | ⟨t, hfind, hne⟩
  · simp [create_flashcard_pair, h]
  · subst h; simp [create_flashcard_pair]
  · by_cases hc : pyTruthy question_template && !ats.isEmpty
    · simp [create_flashcard_pair, hc, hfind, hne]
    · simp [create_flashcard_pair, hc]

/-- C2, amended: `create_flashcard_pair` is independent of the random
source whenever the `question_template` argument is falsy, or the
answer-template collection is empty, or an answer template with the
question template's base filename exists (the first such match being
non-empty); in the remaining case — non-empty `question_template`,
non-empty answer collection, no basename match — the answer template is
drawn from the random source. -/
theorem create_flashcard_pair_deterministic (env : RenderEnv)
    (ats : List String) (rng1 rng2 : Nat) (question answer : String)
    (question_template : Option String)
    (h : pyTruthy question_template = false ∨ ats = [] ∨
      ∃ t, ats.find? (fun t => os_path_basename t ==
          os_path_basename (question_template.getD "")) = some t ∧
        t ≠ "") :
    create_flashcard_pair env ats rng1 question answer question_template =
      create_flashcard_pair env ats rng2 question answer question_template
      :=
  create_flashcard_pair_rng_invariance env ats rng1 rng2 question answer
    question_template h

/-- C2 witness: determinism instantiated where a basename match exists. -/
theorem create_flashcard_pair_deterministic_witness :
    create_flashcard_pair env0 ["3.jpg"] 0 "q" "a" (some "3.jpg") =
      create_flashcard_pair env0 ["3.jpg"] 5 "q" "a" (some "3.jpg") :=
  create_flashcard_pair_deterministic env0 ["3.jpg"] 0 5 "q" "a"
    (some "3.jpg") (Or.inr (Or.inr ⟨"3.jpg", by decide, by decide⟩))

/-- C2 counterexample: with two answer templates and a question template
whose basename matches neither, two invocations differing only in the
random source return different pairs (different answer templates are
chosen), so the renderer is not deterministic as claimed. -/
theorem create_flashcard_pair_random_counterexample :
    create_flashcard_pair env0 ["1.jpg", "2.jpg"] 0 "q" "a" (some "3.jpg") ≠
      create_flashcard_pair env0 ["1.jpg", "2.jpg"] 1 "q" "a" (some "3.jpg")
      := by
  intro heq
  have h1 : (create_flashcard_pair env0 ["1.jpg", "2.jpg"] 0 "q" "a"
      (some "3.jpg")).2.source = ImgSource.template "1.jpg" := rfl
  have h2 : (create_flashcard_pair env0 ["1.jpg", "2.jpg"] 1 "q" "a"
      (some "3.jpg")).2.source = ImgSource.template "2.jpg" := rfl
  rw [heq, h2] at h1
  have : "2.jpg" = "1.jpg" := by injection h1
  exact absurd this (by decide)

/-- C6: when some answer template shares the question template's (non-empty)
base filename, the first such template is selected deterministically for
the back card — its basename equals the question template's — and the
result does not depend on the random source. -/
theorem create_flashcard_pair_matching (env : RenderEnv)
    (ats : List String) (rng rng2 : Nat) (question answer p : String)
    (hb : os_path_basename p ≠ "")
    (hm : ∃ t ∈ ats, os_path_basename t = os_path_basename p) :
    ∃ t, ats.find? (fun t => os_path_basename t == os_path_basename p) =
        some t ∧
      os_path_basename t = os_path_basename p ∧
      (create_flashcard_pair env ats rng question answer (some p)).2 =
        add_text_to_template env t answer "#FFFFFF" ∧
      create_flashcard_pair env ats rng question answer (some p) =
        create_flashcard_pair env ats rng2 question answer (some p) := by
  obtain ⟨t0, ht0mem, ht0⟩ := hm
  have hsome : (ats.find? (fun t => os_path_basename t ==
      os_path_basename p)).isSome = true :=
    List.find?_isSome.mpr ⟨t0, ht0mem, beq_iff_eq.mpr ht0⟩
  obtain ⟨t, hfind⟩ := Option.isSome_iff_exists.mp hsome
  have htb' := List.find?_some hfind
  have htb : os_path_basename t = os_path_basename p := beq_iff_eq.mp htb'
  have hp : p ≠ "" := by
    intro hp0; subst hp0; exact hb rfl
  have hne : t ≠ "" := by
    intro ht0'; subst ht0'
    exact hb (htb ▸ rfl)
  have hats : ats ≠ [] := List.ne_nil_of_mem ht0mem
  have hgd : (some p).getD "" = p := rfl
  refine ⟨t, hfind, htb, ?_, ?_⟩
  · simp [create_flashcard_pair, pyTruthy, hp, hats, hgd, hfind, hne]
  · exact create_flashcard_pair_rng_invariance env ats rng rng2 question
      answer (some p) (Or.inr (Or.inr ⟨t, by rw [hgd]; exact hfind, hne⟩))

/-- C6 witness: the matching selection at a concrete collection. -/
theorem create_flashcard_pair_matching_witness :
    os_path_basename "/q/7.jpg" ≠ "" ∧
    (∃ t ∈ ["/a/5.jpg", "/a/7.jpg"],
      os_path_basename t = os_path_basename "/q/7.jpg") ∧
    ∃ t, (["/a/5.jpg", "/a/7.jpg"].find? (fun t => os_path_basename t ==
        os_path_basename "/q/7.jpg")) = some t ∧
      os_path_basename t = os_path_basename "/q/7.jpg" ∧
      (create_flashcard_pair env0 ["/a/5.jpg", "/a/7.jpg"] 2 "q" "a"
          (some "/q/7.jpg")).2 = add_text_to_template env0 t "a" "#FFFFFF" ∧
      create_flashcard_pair env0 ["/a/5.jpg", "/a/7.jpg"] 2 "q" "a"
          (some "/q/7.jpg") =
        create_flashcard_pair env0 ["/a/5.jpg", "/a/7.jpg"] 9 "q" "a"
          (some "/q/7.jpg") :=
  ⟨by decide, ⟨"/a/7.jpg", by decide, by decide⟩,
    create_flashcard_pair_matching env0 ["/a/5.jpg", "/a/7.jpg"] 2 9 "q" "a"
      "/q/7.jpg" (by decide) ⟨"/a/7.jpg", by decide, by decide⟩⟩

/-- C8: with an empty answer-template collection and no question template
supplied, the pair is the two 800 by 500 solid fallback cards: the front
blue with the "QUESTION" label drawn at (20, 20), the back green with the
"ANSWER" label drawn at (20, 20). -/
theorem create_flashcard_pair_empty_fallback (env : RenderEnv) (rng : Nat)
    (question answer : String) :
    (create_flashcard_pair env [] rng question answer none).1 =
      create_simple_card env question "QUESTION" "#4A90E2" "#FFFFFF" ∧
    (create_flashcard_pair env [] rng question answer none).1.width = 800 ∧
    (create_flashcard_pair env [] rng question answer none).1.height = 500 ∧
    (create_flashcard_pair env [] rng question answer none).1.source =
      ImgSource.solid "#4A90E2" ∧
    (create_flashcard_pair env [] rng question answer none).1.draws.getD 0
        noDraw =
      { x := 20, y := 20, text := "QUESTION", fontSize := 20,
        fill := "#FFFFFF" } ∧
    (create_flashcard_pair env [] rng question answer none).2 =
      create_simple_card env answer "ANSWER" "#27AE60" "#FFFFFF" ∧
    (create_flashcard_pair env [] rng question answer none).2.width = 800 ∧
    (create_flashcard_pair env [] rng question answer none).2.height = 500 ∧
    (create_flashcard_pair env [] rng question answer none).2.source =
      ImgSource.solid "#27AE60" ∧
    (create_flashcard_pair env [] rng question answer none).2.draws.getD 0
        noDraw =
      { x := 20, y := 20, text := "ANSWER", fontSize := 20,
        fill := "#FFFFFF" } :=
  ⟨rfl, rfl, rfl, rfl, rfl, rfl, rfl, rfl, rfl, rfl⟩

/-- C10: with `question_template = None` the back card is always the solid
green "ANSWER" fallback, whatever the answer-template collection holds —
answer templates are never consulted unless a question template is
supplied. -/
theorem create_flashcard_pair_back_none (env : RenderEnv)
    (ats : List String) (rng : Nat) (question answer : String) :
    (create_flashcard_pair env ats rng question answer none).2 =
      create_simple_card env answer "ANSWER" "#27AE60" "#FFFFFF" := rfl

/-! ### Font loading -/

/-- C9: `load_font` is total — it always returns a font handle, never
raising — and realises the three-tier fallback: the arial truetype font
when it loads, else the DejaVu fallback path when it loads, else the
unconditionally-available default bitmap font. -/
theorem load_font_three_tier (truetypeLoad : String → Nat → Option PILFont)
    (size : Nat) :
    truetypeLoad "arial.ttf" size = some (load_font truetypeLoad size) ∨
    (truetypeLoad "arial.ttf" size = none ∧
      truetypeLoad "/usr/share/fonts/truetype/dejavu/DejaVuSans-Bold.ttf"
        size = some (load_font truetypeLoad size)) ∨
    (truetypeLoad "arial.ttf" size = none ∧
      truetypeLoad "/usr/share/fonts/truetype/dejavu/DejaVuSans-Bold.ttf"
        size = none ∧
      load_font truetypeLoad size = PILFont.bitmapDefault) := by
  rcases h1 : truetypeLoad "arial.ttf" size with _ | f1
  · rcases h2 : truetypeLoad
        "/usr/share/fonts/truetype/dejavu/DejaVuSans-Bold.ttf" size
        with _ | f2
    · exact Or.inr (Or.inr ⟨rfl, rfl, by simp [load_font, h1, h2]⟩)
    · exact Or.inr (Or.inl ⟨rfl, by simp [load_font, h1, h2]⟩)
  · exact Or.inl (by simp [load_font, h1])

/-! ### Constructor and template loading -/

theorem mkdirs_pathExists_self (fs : FS) (d : String) :
    (fs.mkdirs d).pathExists d = true := by
  simp only [FS.mkdirs]
  split_ifs with h
  · exact h
  · simp

theorem mkdirs_pathExists_other (fs : FS) (d p : String) (hne : p ≠ d) :
    (fs.mkdirs d).pathExists p = fs.pathExists p := by
  simp only [FS.mkdirs]
  split_ifs with h
  · rfl
  · simp [beq_eq_false_iff_ne.mpr hne]

theorem mkdirs_pathExists_mono (fs : FS) (d p : String)
    (h : fs.pathExists p = true) : (fs.mkdirs d).pathExists p = true := by
  simp only [FS.mkdirs]
  split_ifs with h0
  · exact h
  · simp [h]

theorem mkdirs_listdir_other (fs : FS) (d p : String) (hne : p ≠ d) :
    (fs.mkdirs d).listdir p = fs.listdir p := by
  simp only [FS.mkdirs]
  split_ifs with h
  · rfl
  · simp [beq_eq_false_iff_ne.mpr hne]

theorem mkdirs_listdir_self (fs : FS) (d : String) :
    (fs.mkdirs d).listdir d =
      if fs.pathExists d then fs.listdir d else [] := by
  simp only [FS.mkdirs]
  split_ifs with h
  · rfl
  · simp

theorem mkdirs_canOpen (fs : FS) (d : String) :
    (fs.mkdirs d).canOpen = fs.canOpen := by
  simp only [FS.mkdirs]
  split_ifs <;> rfl

theorem load_templates_mem (fs : FS) (d p : String) :
    p ∈ load_templates fs d ↔
      (fs.pathExists d = true ∧ ∃ file ∈ fs.listdir d,
        is_image_file file = true ∧ fs.canOpen (d ++ "/" ++ file) = true ∧
        p = d ++ "/" ++ file) := by
  cases hb : fs.pathExists d
  · simp [load_templates, hb]
  · simp only [load_templates, hb, Bool.not_true, Bool.false_eq_true,
      if_false, List.mem_filterMap, true_and]
    constructor
    · rintro ⟨file, hmem, hf⟩
      by_cases h1 : is_image_file file
      · by_cases h2 : fs.canOpen (d ++ "/" ++ file)
        · rw [if_pos h1, if_pos h2] at hf
          exact ⟨file, hmem, h1, h2, (Option.some_injective _ hf).symm⟩
        · rw [if_pos h1, if_neg h2] at hf
          exact absurd hf (by simp)
      · rw [if_neg h1] at hf
        exact absurd hf (by simp)
    · rintro ⟨file, hmem, h1, h2, rfl⟩
      exact ⟨file, hmem, by rw [if_pos h1, if_pos h2]⟩

theorem template_dirs_ne (file_dir : String) :
    (template_dirs file_dir).1 ≠ (template_dirs file_dir).2 := by
  simp only [template_dirs]
  intro h
  have hlen := congrArg String.length h
  rw [String.length_append, String.length_append] at hlen
  have h1 : ("/src/templates/questions" : String).length = 24 := rfl
  have h2 : ("/src/templates/answers" : String).length = 22 := rfl
  omega

/-- C3, amended: the constructor ignores its two directory-path arguments
(the collections are identical whatever is passed); the directories
actually scanned are the fixed ones derived from the source file's
location (`template_dirs`), the scan keeps exactly the listed files with an
image extension (case-insensitive `.png`/`.jpg`/`.jpeg`) that can be
opened as images, as `directory ++ "/" ++ file` paths, and a non-existent
directory yields the empty collection without error (it is in fact created
first). -/
theorem flashcard_generator_init_characterization (fs : FS)
    (file_dir q1 a1 q2 a2 : String) :
    FlashcardGenerator.init fs file_dir q1 a1 =
      FlashcardGenerator.init fs file_dir q2 a2 ∧
    (∀ p, p ∈ (FlashcardGenerator.init fs file_dir q1 a1).1 ↔
      (fs.pathExists (template_dirs file_dir).1 = true ∧
        ∃ file ∈ fs.listdir (template_dirs file_dir).1,
          is_image_file file = true ∧
          fs.canOpen ((template_dirs file_dir).1 ++ "/" ++ file) = true ∧
          p = (template_dirs file_dir).1 ++ "/" ++ file)) ∧
    (∀ p, p ∈ (FlashcardGenerator.init fs file_dir q1 a1).2 ↔
      (fs.pathExists (template_dirs file_dir).2 = true ∧
        ∃ file ∈ fs.listdir (template_dirs file_dir).2,
          is_image_file file = true ∧
          fs.canOpen ((template_dirs file_dir).2 ++ "/" ++ file) = true ∧
          p = (template_dirs file_dir).2 ++ "/" ++ file)) := by
  have hne : (template_dirs file_dir).1 ≠ (template_dirs file_dir).2 :=
    template_dirs_ne file_dir
  refine ⟨rfl, fun p => ?_, fun p => ?_⟩
  · have hstep : (FlashcardGenerator.init fs file_dir q1 a1).1 =
        load_templates ((fs.mkdirs (template_dirs file_dir).1).mkdirs
          (template_dirs file_dir).2) (template_dirs file_dir).1 := rfl
    rw [hstep, load_templates_mem,
      mkdirs_listdir_other (fs.mkdirs (template_dirs file_dir).1)
        (template_dirs file_dir).2 (template_dirs file_dir).1 hne,
      mkdirs_listdir_self fs (template_dirs file_dir).1,
      mkdirs_canOpen, mkdirs_canOpen,
      mkdirs_pathExists_mono (fs.mkdirs (template_dirs file_dir).1)
        (template_dirs file_dir).2 (template_dirs file_dir).1
        (mkdirs_pathExists_self fs (template_dirs file_dir).1)]
    cases hb : fs.pathExists (template_dirs file_dir).1 <;> simp [hb]
  · have hstep : (FlashcardGenerator.init fs file_dir q1 a1).2 =
        load_templates ((fs.mkdirs (template_dirs file_dir).1).mkdirs
          (template_dirs file_dir).2) (template_dirs file_dir).2 := rfl
    rw [hstep, load_templates_mem,
      mkdirs_listdir_self (fs.mkdirs (template_dirs file_dir).1)
        (template_dirs file_dir).2,
      mkdirs_pathExists_other fs (template_dirs file_dir).1
        (template_dirs file_dir).2 (Ne.symm hne),
      mkdirs_listdir_other fs (template_dirs file_dir).1
        (template_dirs file_dir).2 (Ne.symm hne),
      mkdirs_canOpen, mkdirs_canOpen,
      mkdirs_pathExists_self (fs.mkdirs (template_dirs file_dir).1)
        (template_dirs file_dir).2]
    cases hb : fs.pathExists (template_dirs file_dir).2 <;> simp [hb]

/-- C3 counterexample: a filesystem where the directory passed to the
constructor contains `x.png` (and every path exists and decodes), yet the
constructor returns empty collections, differing from the spec-mandated
scan of the passed directories: the arguments are ignored and fixed derived
paths are scanned instead. -/
theorem flashcard_generator_init_counterexample :
    FlashcardGenerator.init fs_cex "/proj/src" "mydir/q" "mydir/a" ≠
      flashcard_init_spec fs_cex "mydir/q" "mydir/a" := by decide

/-- C3 witness: argument-independence applied at concrete arguments. -/
theorem flashcard_generator_init_witness :
    FlashcardGenerator.init fs_cex "/proj/src" "mydir/q" "mydir/a" =
      FlashcardGenerator.init fs_cex "/proj/src" "other/q" "other/a" :=
  (flashcard_generator_init_characterization fs_cex "/proj/src" "mydir/q"
    "mydir/a" "other/q" "other/a").1

end FlashCard
